import Mathlib

/-!
Shallow embedding of the WebGPU 3D viewer extension.

Two scene modules are embedded:
* `BarChart` — `src/visualization.js`, the instanced 3D bar chart
  (instance data layout, `updateInstanceScales`, `fetchDataAndUpdate`,
  `perspective`, `multiply`, the render-loop surface state);
* `CubeViewer` — `src/unnamed/part_000` (`viewer.js`), the rotating cube
  (`multiply`, the depth-attachment resize check in `frame`).

JavaScript numbers are modelled by rationals; `Option ℚ` is used where a
computation can produce NaN (an out-of-range typed-array / array read yields
`undefined`, and arithmetic on `undefined` yields NaN, modelled by `none`).
-/

namespace Viz

/-- A JavaScript numeric value: `some q` is an ordinary (finite) number,
`none` models NaN (arising here only from reading past the end of the
magnitudes array: `values[i]` is `undefined` and `undefined / x` is NaN). -/
abbrev JSNum := Option ℚ

/-- JS addition: NaN propagates. -/
def jsAdd : JSNum → JSNum → JSNum
  | some a, some b => some (a + b)
  | _, _ => none

/-- JS multiplication: NaN propagates. -/
def jsMul : JSNum → JSNum → JSNum
  | some a, some b => some (a * b)
  | _, _ => none

/-- JS division: NaN propagates. Division by zero is mapped to `none`;
this case is unreachable in the embedded code (the only divisor is
`Math.max(...values, 1) ≥ 1`). -/
def jsDiv : JSNum → JSNum → JSNum
  | some a, some b => if b = 0 then none else some (a / b)
  | _, _ => none

namespace BarChart

/-- `const barCount = 10;` (visualization.js line 67). -/
def barCount : Nat := 10

/-- `const barSpacing = 0.12;` (visualization.js line 68). -/
def barSpacing : ℚ := 12 / 100

/-- The creation-time instance data (visualization.js lines 70–81):
for each bar `i`, six floats `offset.x, offset.y, offset.z,
scale.x, scale.y, scale.z` with
`offset.x = (i - (barCount - 1) / 2) * barSpacing`, `offset.y = offset.z = 0`,
`scale.x = scale.z = 0.08`, and initial `scale.y = 0.5`. -/
def initInstanceData : List JSNum :=
  (List.range barCount).flatMap fun i =>
    [some (((i : ℚ) - ((barCount : ℚ) - 1) / 2) * barSpacing),
     some 0, some 0,
     some (8 / 100), some (5 / 10), some (8 / 100)]

/-- The render-visible state touched by `updateInstanceScales`: the CPU-side
`instanceData` array and a count of `device.queue.writeBuffer` calls on the
instance buffer (to witness whether a GPU upload happened). -/
structure BarState where
  instanceData : List JSNum
  writes : Nat
  deriving Repr, DecidableEq

/-- State right after startup: `instanceData` as created, one initial upload
(visualization.js line 86). -/
def initState : BarState :=
  { instanceData := initInstanceData, writes := 1 }

/-- `Math.max(...values, 1)` (visualization.js line 268). `Math.max` is
insensitive to argument order, so it is folded with initial value `1`. -/
def jsMathMax1 (values : List ℚ) : ℚ :=
  values.foldl max 1

/-- The value stored into `instanceData[i * 6 + 4]` by the loop body of
`updateInstanceScales` (visualization.js lines 270–272):
`0.05 + (values[i] / maxValue) * 0.9`, where `values[i]` is `undefined`
(hence the result NaN) when `i ≥ values.length`. -/
def scaleExpr (values : List ℚ) (maxValue : ℚ) (i : Nat) : JSNum :=
  jsAdd (some (5 / 100)) (jsMul (jsDiv values[i]? (some maxValue)) (some (9 / 10)))

/-- `updateInstanceScales(values)` (visualization.js lines 267–275): computes
`maxValue = Math.max(...values, 1)`, rewrites `instanceData[i * 6 + 4]` for
`i = 0 .. barCount - 1`, then unconditionally uploads the whole array with one
`writeBuffer`. There is no length check of any kind. -/
def updateInstanceScales (values : List ℚ) (s : BarState) : BarState :=
  let maxValue := jsMathMax1 values
  { instanceData :=
      (List.range barCount).foldl
        (fun d i => d.set (i * 6 + 4) (scaleExpr values maxValue i)) s.instanceData,
    writes := s.writes + 1 }

/-- The state after a whole session of data arrivals: each arrival is one
`updateInstanceScales` call, starting from the creation-time state. -/
def applyUpdates (updates : List (List ℚ)) : BarState :=
  updates.foldl (fun s v => updateInstanceScales v s) initState

/-- The possible outcomes of the data fetch in `fetchDataAndUpdate`
(visualization.js lines 278–295): the `fetch` can throw (network error), the
response can have a non-success status (`resp.ok` false), the body can fail to
parse as JSON (`resp.json()` throws, caught by the same `catch`), or the fetch
succeeds and a USD rate is extracted (`none` models an absent/unparsable rate
field, for which `parseFloat` yields NaN). -/
inductive FetchOutcome where
  | networkError : FetchOutcome
  | badStatus : FetchOutcome
  | malformedBody : FetchOutcome
  | success : Option ℚ → FetchOutcome
  deriving DecidableEq

/-- The magnitude sequence `fetchDataAndUpdate` hands to
`updateInstanceScales`, per outcome.  `rnd` is the stream of `Math.random()`
draws (each in `[0, 1)`).  On success (visualization.js lines 283–285):
`usdRate = parseFloat(rate) || Math.random() * 50000` (`||` substitutes the
random rate when the parse gives NaN or 0, both falsy), then ten values
`usdRate * (0.8 + Math.random() * 0.4)`.  On any failure (lines 289–294) the
`catch` / fallthrough path produces ten values `Math.random() * 100`. -/
def adapterValues (o : FetchOutcome) (rnd : Nat → ℚ) : List ℚ :=
  match o with
  | .success rateOpt =>
    let usdRate :=
      match rateOpt with
      | some r => if r = 0 then rnd 0 * 50000 else r
      | none => rnd 0 * 50000
    (List.range barCount).map fun k => usdRate * (8 / 10 + rnd (k + 1) * (4 / 10))
  | _ => (List.range barCount).map fun k => rnd k * 100

/-- `fetchDataAndUpdate` (visualization.js lines 278–295): every outcome,
success or failure, ends in a plain `updateInstanceScales` call on the
produced sequence.  The embedding is total: the `try`/`catch` absorbs the
throwing paths, so no exception crosses this function's boundary. -/
def fetchDataAndUpdate (o : FetchOutcome) (rnd : Nat → ℚ) (s : BarState) : BarState :=
  updateInstanceScales (adapterValues o rnd) s

end BarChart

/-- Read element `i` of a matrix stored as a flat array.  Every read in the
embedded matrix code is in range for the 16-element `Float32Array`s, so the
default value `0` is never observed. -/
def mget (m : List ℚ) (i : Nat) : ℚ :=
  m.getD i 0

namespace BarChart

/-- `perspective(fov, aspect, near, far)` (visualization.js lines 178–199;
textually identical in viewer.js lines 145–166).  Because `Math.tan` is
transcendental, the embedding is parameterized by `tanHalfFov`, the value of
`Math.tan(fov / 2)`; `f = 1 / tanHalfFov`, and the matrix is the column-major
array written by the source (indices 0, 5, 10, 11, 14 nonzero). -/
def perspective (tanHalfFov aspect near far : ℚ) : List ℚ :=
  let f := 1 / tanHalfFov
  let nf := 1 / (near - far)
  [f / aspect, 0, 0, 0,
   0, f, 0, 0,
   0, 0, (far + near) * nf, -1,
   0, 0, 2 * far * near * nf, 0]

end BarChart

/-- Apply a column-major 4×4 matrix to a homogeneous point `(x, y, z, w)`:
row `r` of the result is the sum over columns `c` of `m[c * 4 + r] * p_c`. -/
def transformVec (m : List ℚ) (x y z w : ℚ) : ℚ × ℚ × ℚ × ℚ :=
  (mget m 0 * x + mget m 4 * y + mget m 8 * z + mget m 12 * w,
   mget m 1 * x + mget m 5 * y + mget m 9 * z + mget m 13 * w,
   mget m 2 * x + mget m 6 * y + mget m 10 * z + mget m 14 * w,
   mget m 3 * x + mget m 7 * y + mget m 11 * z + mget m 15 * w)

/-- The clip-space `z` of a point `(x, y, z, 1)` under matrix `m`. -/
def clipZ (m : List ℚ) (x y z : ℚ) : ℚ :=
  (transformVec m x y z 1).2.2.1

/-- The clip-space `w` of a point `(x, y, z, 1)` under matrix `m`. -/
def clipW (m : List ℚ) (x y z : ℚ) : ℚ :=
  (transformVec m x y z 1).2.2.2

/-- Normalized depth after the perspective divide: `clip.z / clip.w`. -/
def ndcDepth (m : List ℚ) (x y z : ℚ) : ℚ :=
  clipZ m x y z / clipW m x y z

namespace BarChart

/-- `multiply(a, b)` of the bar-chart module (visualization.js lines 237–264):
fully unrolled, with `aRC = a[R * 4 + C]` and
`out[R * 4 + C]` the sum over `k` of `aRk * bkC = a[R * 4 + k] * b[k * 4 + C]`. -/
def multiply (a b : List ℚ) : List ℚ :=
  [mget a 0 * mget b 0 + mget a 1 * mget b 4 + mget a 2 * mget b 8 + mget a 3 * mget b 12,
   mget a 0 * mget b 1 + mget a 1 * mget b 5 + mget a 2 * mget b 9 + mget a 3 * mget b 13,
   mget a 0 * mget b 2 + mget a 1 * mget b 6 + mget a 2 * mget b 10 + mget a 3 * mget b 14,
   mget a 0 * mget b 3 + mget a 1 * mget b 7 + mget a 2 * mget b 11 + mget a 3 * mget b 15,
   mget a 4 * mget b 0 + mget a 5 * mget b 4 + mget a 6 * mget b 8 + mget a 7 * mget b 12,
   mget a 4 * mget b 1 + mget a 5 * mget b 5 + mget a 6 * mget b 9 + mget a 7 * mget b 13,
   mget a 4 * mget b 2 + mget a 5 * mget b 6 + mget a 6 * mget b 10 + mget a 7 * mget b 14,
   mget a 4 * mget b 3 + mget a 5 * mget b 7 + mget a 6 * mget b 11 + mget a 7 * mget b 15,
   mget a 8 * mget b 0 + mget a 9 * mget b 4 + mget a 10 * mget b 8 + mget a 11 * mget b 12,
   mget a 8 * mget b 1 + mget a 9 * mget b 5 + mget a 10 * mget b 9 + mget a 11 * mget b 13,
   mget a 8 * mget b 2 + mget a 9 * mget b 6 + mget a 10 * mget b 10 + mget a 11 * mget b 14,
   mget a 8 * mget b 3 + mget a 9 * mget b 7 + mget a 10 * mget b 11 + mget a 11 * mget b 15,
   mget a 12 * mget b 0 + mget a 13 * mget b 4 + mget a 14 * mget b 8 + mget a 15 * mget b 12,
   mget a 12 * mget b 1 + mget a 13 * mget b 5 + mget a 14 * mget b 9 + mget a 15 * mget b 13,
   mget a 12 * mget b 2 + mget a 13 * mget b 6 + mget a 14 * mget b 10 + mget a 15 * mget b 14,
   mget a 12 * mget b 3 + mget a 13 * mget b 7 + mget a 14 * mget b 11 + mget a 15 * mget b 15]

end BarChart

namespace CubeViewer

/-- `multiply(a, b)` of the cube-viewer module (viewer.js lines 206–219):
the loop over `i = 0 .. 3` reads `ai0 = a[i]`, `ai1 = a[i + 4]`,
`ai2 = a[i + 8]`, `ai3 = a[i + 12]` and writes `out[i + 4 * m]` as the sum
over `k` of `a[i + 4 * k] * b[4 * m + k]`, here written out in flat index
order `out[0], out[1], ..., out[15]`. -/
def multiply (a b : List ℚ) : List ℚ :=
  [mget a 0 * mget b 0 + mget a 4 * mget b 1 + mget a 8 * mget b 2 + mget a 12 * mget b 3,
   mget a 1 * mget b 0 + mget a 5 * mget b 1 + mget a 9 * mget b 2 + mget a 13 * mget b 3,
   mget a 2 * mget b 0 + mget a 6 * mget b 1 + mget a 10 * mget b 2 + mget a 14 * mget b 3,
   mget a 3 * mget b 0 + mget a 7 * mget b 1 + mget a 11 * mget b 2 + mget a 15 * mget b 3,
   mget a 0 * mget b 4 + mget a 4 * mget b 5 + mget a 8 * mget b 6 + mget a 12 * mget b 7,
   mget a 1 * mget b 4 + mget a 5 * mget b 5 + mget a 9 * mget b 6 + mget a 13 * mget b 7,
   mget a 2 * mget b 4 + mget a 6 * mget b 5 + mget a 10 * mget b 6 + mget a 14 * mget b 7,
   mget a 3 * mget b 4 + mget a 7 * mget b 5 + mget a 11 * mget b 6 + mget a 15 * mget b 7,
   mget a 0 * mget b 8 + mget a 4 * mget b 9 + mget a 8 * mget b 10 + mget a 12 * mget b 11,
   mget a 1 * mget b 8 + mget a 5 * mget b 9 + mget a 9 * mget b 10 + mget a 13 * mget b 11,
   mget a 2 * mget b 8 + mget a 6 * mget b 9 + mget a 10 * mget b 10 + mget a 14 * mget b 11,
   mget a 3 * mget b 8 + mget a 7 * mget b 9 + mget a 11 * mget b 10 + mget a 15 * mget b 11,
   mget a 0 * mget b 12 + mget a 4 * mget b 13 + mget a 8 * mget b 14 + mget a 12 * mget b 15,
   mget a 1 * mget b 12 + mget a 5 * mget b 13 + mget a 9 * mget b 14 + mget a 13 * mget b 15,
   mget a 2 * mget b 12 + mget a 6 * mget b 13 + mget a 10 * mget b 14 + mget a 14 * mget b 15,
   mget a 3 * mget b 12 + mget a 7 * mget b 13 + mget a 11 * mget b 14 + mget a 15 * mget b 15]

end CubeViewer

/-- The render-surface state relevant to the depth-attachment invariant:
the canvas pixel dimensions (set by `resizeCanvas`) and the dimensions the
current depth texture was created with. -/
structure SurfaceState where
  canvasW : Nat
  canvasH : Nat
  depthW : Nat
  depthH : Nat
  deriving Repr, DecidableEq

/-- At startup both modules create the depth texture at the current canvas
size (`[canvas.width, canvas.height, 1]`; visualization.js lines 171–175,
viewer.js lines 138–142). -/
def initSurface (w h : Nat) : SurfaceState :=
  { canvasW := w, canvasH := h, depthW := w, depthH := h }

/-- `resizeCanvas` (both modules): updates `canvas.width` / `canvas.height`
and reconfigures the swapchain, but touches no depth texture. -/
def resizeCanvas (s : SurfaceState) (w h : Nat) : SurfaceState :=
  { s with canvasW := w, canvasH := h }

namespace BarChart

/-- One iteration of the bar-chart render loop, restricted to the depth
attachment (visualization.js lines 304–347): the `frame` function contains no
resize check, so the pass is always encoded with the depth texture created at
startup.  Returns the (unchanged) state and the width and height of the depth
attachment bound into the render pass. -/
def framePass (s : SurfaceState) : SurfaceState × Nat × Nat :=
  (s, s.depthW, s.depthH)

end BarChart

namespace CubeViewer

/-- One iteration of the cube-viewer render loop, restricted to the depth
attachment (viewer.js lines 268–275): if the depth texture's dimensions
differ from the canvas's, it is destroyed and re-created at the canvas
dimensions before the pass is encoded.  Returns the new state and the depth
attachment dimensions bound into the render pass. -/
def framePass (s : SurfaceState) : SurfaceState × Nat × Nat :=
  if s.depthW ≠ s.canvasW ∨ s.depthH ≠ s.canvasH then
    ({ s with depthW := s.canvasW, depthH := s.canvasH }, s.canvasW, s.canvasH)
  else
    (s, s.depthW, s.depthH)

end CubeViewer

/-- The externally observable effects of `initVisualization`
(visualization.js lines 7–13 for the guard, the rest of the function for the
GPU-available path); `initWebGPU` (viewer.js lines 4–10) has the identical
guard.  When `navigator.gpu` is absent the function shows the fallback
message, hides the canvas and returns before any buffer, pipeline or render
loop exists; otherwise every resource is created and the render loop issues
one indexed draw per frame. -/
structure InitResult where
  messageShown : Bool
  canvasHidden : Bool
  vertexBufferCreated : Bool
  indexBufferCreated : Bool
  instanceBufferCreated : Bool
  uniformBufferCreated : Bool
  pipelineCreated : Bool
  drawCalls : Nat
  deriving Repr, DecidableEq

namespace BarChart

/-- `initVisualization` as a function of GPU availability and of how many
frames the host delivers: the `if (!navigator.gpu)` guard returns after the
two DOM effects, so nothing after it runs. -/
def initVisualization (gpuAvailable : Bool) (frames : Nat) : InitResult :=
  if gpuAvailable then
    { messageShown := false, canvasHidden := false,
      vertexBufferCreated := true, indexBufferCreated := true,
      instanceBufferCreated := true, uniformBufferCreated := true,
      pipelineCreated := true, drawCalls := frames }
  else
    { messageShown := true, canvasHidden := true,
      vertexBufferCreated := false, indexBufferCreated := false,
      instanceBufferCreated := false, uniformBufferCreated := false,
      pipelineCreated := false, drawCalls := 0 }

end BarChart

end Viz

namespace Viz

@[simp]
theorem jsAdd_some_some (a b : ℚ) : jsAdd (some a) (some b) = some (a + b) :=
  rfl

@[simp]
theorem jsAdd_none_right (a : JSNum) : jsAdd a none = none := by
  cases a <;> rfl

@[simp]
theorem jsMul_some_some (a b : ℚ) : jsMul (some a) (some b) = some (a * b) :=
  rfl

@[simp]
theorem jsMul_none_left (b : JSNum) : jsMul none b = none := by
  cases b <;> rfl

@[simp]
theorem jsDiv_none_left (b : JSNum) : jsDiv none b = none := by
  cases b <;> rfl

theorem jsDiv_some_some (a b : ℚ) (h : b ≠ 0) : jsDiv (some a) (some b) = some (a / b) := by
  simp [jsDiv, h]

namespace BarChart

/-- The fold in `updateInstanceScales` preserves the array length. -/
theorem updateLoop_length (values : List ℚ) (M : ℚ) (d : List JSNum) (n : Nat) :
    ((List.range n).foldl (fun d i => d.set (i * 6 + 4) (scaleExpr values M i)) d).length
      = d.length := by
  induction n with
  | zero => rfl
  | succ n ih =>
    rw [List.range_succ, List.foldl_append]
    simp [List.length_set, ih]

/-- Entries whose index is not of the form `i * 6 + 4` (i.e. index mod 6 ≠ 4)
are untouched by the `updateInstanceScales` loop. -/
theorem updateLoop_getD_untouched (values : List ℚ) (M : ℚ) (d : List JSNum)
    (n j : Nat) (hj : j % 6 ≠ 4) :
    ((List.range n).foldl (fun d i => d.set (i * 6 + 4) (scaleExpr values M i)) d).getD j none
      = d.getD j none := by
  induction n with
  | zero => rfl
  | succ n ih =>
    rw [List.range_succ, List.foldl_append]
    have hne : n * 6 + 4 ≠ j := by
      intro h
      apply hj
      omega
    simp only [List.foldl_cons, List.foldl_nil, List.getD_eq_getElem?_getD] at ih ⊢
    rw [List.getElem?_set_ne hne, ih]

/-- After the `updateInstanceScales` loop, the entry at `i * 6 + 4` for
`i < n` holds the freshly computed scale value (provided the index is in
range, as it always is for the 60-element instance array). -/
theorem updateLoop_getD_hit (values : List ℚ) (M : ℚ) (d : List JSNum)
    (n i : Nat) (hin : i < n) (hlen : i * 6 + 4 < d.length) :
    ((List.range n).foldl (fun d i => d.set (i * 6 + 4) (scaleExpr values M i)) d).getD
        (i * 6 + 4) none
      = scaleExpr values M i := by
  induction n with
  | zero => omega
  | succ n ih =>
    rw [List.range_succ, List.foldl_append]
    simp only [List.foldl_cons, List.foldl_nil]
    rcases Nat.lt_succ_iff_lt_or_eq.mp hin with h | rfl
    · have hne : n * 6 + 4 ≠ i * 6 + 4 := by omega
      simp only [List.getD_eq_getElem?_getD] at ih ⊢
      rw [List.getElem?_set_ne hne]
      exact ih h
    · have hlt : i * 6 + 4 <
          ((List.range i).foldl
            (fun d k => d.set (k * 6 + 4) (scaleExpr values M k)) d).length := by
        rw [updateLoop_length]; exact hlen
      simp only [List.getD_eq_getElem?_getD]
      rw [List.getElem?_set_self hlt, Option.getD_some]

/-- The initial accumulator is a lower bound of a `max` fold. -/
theorem foldl_max_init_le (l : List ℚ) (a : ℚ) : a ≤ l.foldl max a := by
  induction l generalizing a with
  | nil => exact le_refl a
  | cons x xs ih => exact le_trans (le_max_left a x) (ih (max a x))

/-- A `max` fold is monotone in its initial accumulator. -/
theorem foldl_max_init_mono (l : List ℚ) {a b : ℚ} (h : a ≤ b) :
    l.foldl max a ≤ l.foldl max b := by
  induction l generalizing a b with
  | nil => exact h
  | cons x xs ih => exact ih (max_le_max h (le_refl x))

/-- Every list element is a lower bound of a `max` fold over the list. -/
theorem le_foldl_max_of_mem {x : ℚ} {l : List ℚ} (hx : x ∈ l) (a : ℚ) :
    x ≤ l.foldl max a := by
  induction l generalizing a with
  | nil => cases hx
  | cons y ys ih =>
    rcases List.mem_cons.mp hx with rfl | h
    · exact le_trans (le_max_right a x) (foldl_max_init_le ys (max a x))
    · exact ih h (max a y)

/-- A `max` fold is bounded by any common upper bound of the accumulator and
the list elements. -/
theorem foldl_max_le {l : List ℚ} {a z : ℚ} (ha : a ≤ z) (h : ∀ x ∈ l, x ≤ z) :
    l.foldl max a ≤ z := by
  induction l generalizing a with
  | nil => exact ha
  | cons x xs ih =>
    exact ih (max_le ha (h x (List.mem_cons_self x xs))) fun y hy => h y (List.mem_cons_of_mem x hy)

/-- A `max` fold is either the initial accumulator or an element of the list. -/
theorem foldl_max_mem_or (l : List ℚ) (a : ℚ) :
    l.foldl max a = a ∨ l.foldl max a ∈ l := by
  induction l generalizing a with
  | nil => exact Or.inl rfl
  | cons x xs ih =>
    rcases ih (max a x) with h | h
    · rcases max_choice a x with hm | hm
      · exact Or.inl (by rw [List.foldl_cons, h, hm])
      · exact Or.inr (by rw [List.foldl_cons, h, hm]; exact List.mem_cons_self x xs)
    · exact Or.inr (List.mem_cons_of_mem x h)

/-- Scaling every element and the accumulator by a nonnegative constant scales
a `max` fold by that constant. -/
theorem foldl_max_map_mul {c : ℚ} (hc : 0 ≤ c) (l : List ℚ) (a : ℚ) :
    (l.map fun x => c * x).foldl max (c * a) = c * l.foldl max a := by
  induction l generalizing a with
  | nil => rfl
  | cons x xs ih =>
    simp only [List.map_cons, List.foldl_cons]
    rw [← mul_max_of_nonneg a x hc]
    exact ih (max a x)

/-- `Math.max(...values, 1)` is at least 1. -/
theorem one_le_jsMathMax1 (values : List ℚ) : 1 ≤ jsMathMax1 values :=
  foldl_max_init_le values 1

/-- The divisor used by `updateInstanceScales` is never zero. -/
theorem jsMathMax1_ne_zero (values : List ℚ) : jsMathMax1 values ≠ 0 := by
  have h := one_le_jsMathMax1 values
  intro hz
  rw [hz] at h
  norm_num at h

/-- When some magnitude is at least 1 and the scaling constant is at least 1,
`Math.max(...values, 1)` commutes with uniform scaling of the magnitudes. -/
theorem jsMathMax1_map_mul {c : ℚ} (hc : 1 ≤ c) {l : List ℚ}
    (hex : ∃ y ∈ l, 1 ≤ y) :
    jsMathMax1 (l.map fun x => c * x) = c * jsMathMax1 l := by
  obtain ⟨y, hy, h1y⟩ := hex
  have hc0 : (0 : ℚ) ≤ c := le_trans zero_le_one hc
  have hB : (l.map fun x => c * x).foldl max c = c * l.foldl max 1 := by
    have := foldl_max_map_mul hc0 l 1
    rwa [mul_one] at this
  have hAB : (l.map fun x => c * x).foldl max 1 = (l.map fun x => c * x).foldl max c := by
    apply le_antisymm
    · exact foldl_max_init_mono _ hc
    · apply foldl_max_le
      · have hcy : c ≤ c * y := le_mul_of_one_le_right hc0 h1y
        exact le_trans hcy (le_foldl_max_of_mem (List.mem_map_of_mem _ hy) 1)
      · intro x hx
        exact le_foldl_max_of_mem hx 1
  unfold jsMathMax1
  rw [hAB, hB]

/-- A single `updateInstanceScales` changes the array length not at all. -/
theorem update_length (values : List ℚ) (s : BarState) :
    (updateInstanceScales values s).instanceData.length = s.instanceData.length := by
  simp only [updateInstanceScales]
  exact updateLoop_length values (jsMathMax1 values) s.instanceData barCount

/-- A single `updateInstanceScales` leaves every entry whose index is not of
the form `i * 6 + 4` unchanged. -/
theorem update_untouched (values : List ℚ) (s : BarState) (j : Nat) (hj : j % 6 ≠ 4) :
    (updateInstanceScales values s).instanceData.getD j none
      = s.instanceData.getD j none := by
  simp only [updateInstanceScales]
  exact updateLoop_getD_untouched values (jsMathMax1 values) s.instanceData barCount j hj

/-- A single `updateInstanceScales` stores `scaleExpr` at index `i * 6 + 4`
for every bar `i`. -/
theorem update_hit (values : List ℚ) (s : BarState) (i : Nat) (hi : i < barCount)
    (hlen : i * 6 + 4 < s.instanceData.length) :
    (updateInstanceScales values s).instanceData.getD (i * 6 + 4) none
      = scaleExpr values (jsMathMax1 values) i := by
  simp only [updateInstanceScales]
  exact updateLoop_getD_hit values (jsMathMax1 values) s.instanceData barCount i hi hlen

/-- Reading a bar index beyond the magnitude sequence yields NaN scale. -/
theorem scaleExpr_eq_none (values : List ℚ) (M : ℚ) (i : Nat)
    (h : values[i]? = none) :
    scaleExpr values M i = none := by
  simp [scaleExpr, h]

/-- Reading a bar index inside the magnitude sequence yields the affine
normalized scale. -/
theorem scaleExpr_eq_some (values : List ℚ) (M : ℚ) (i : Nat) (v : ℚ) (hM : M ≠ 0)
    (h : values[i]? = some v) :
    scaleExpr values M i = some (5 / 100 + v / M * (9 / 10)) := by
  rw [scaleExpr, h, jsDiv_some_some v M hM, jsMul_some_some, jsAdd_some_some]

/-- Entries whose index is not of the form `i * 6 + 4` survive any number of
`updateInstanceScales` calls. -/
theorem foldUpdates_untouched (updates : List (List ℚ)) (s : BarState) (j : Nat)
    (hj : j % 6 ≠ 4) :
    ((updates.foldl (fun s v => updateInstanceScales v s) s).instanceData.getD j none)
      = s.instanceData.getD j none := by
  induction updates generalizing s with
  | nil => rfl
  | cons v vs ih =>
    rw [List.foldl_cons, ih (updateInstanceScales v s), update_untouched v s j hj]

end BarChart

/-- C1 counterexample: `updateInstanceScales` called on an 11-element
sequence (length ≠ barCount = 10) does not fail and does not leave the state
alone: starting from the startup state it changes bar 0's scale.y (index 4)
from 0.5 to 0.95 and performs a buffer write, refuting the claimed
`ShapeMismatch` rejection. -/
theorem C1_counterexample :
    ([1, 1, 1, 1, 1, 1, 1, 1, 1, 1, 1] : List ℚ).length ≠ BarChart.barCount
    ∧ (BarChart.updateInstanceScales [1, 1, 1, 1, 1, 1, 1, 1, 1, 1, 1]
          BarChart.initState).instanceData.getD 4 none
        ≠ BarChart.initState.instanceData.getD 4 none
    ∧ (BarChart.updateInstanceScales [1, 1, 1, 1, 1, 1, 1, 1, 1, 1, 1]
          BarChart.initState).writes
        ≠ BarChart.initState.writes := by
  refine ⟨by decide, ?_, by decide⟩
  have h := BarChart.update_hit [1, 1, 1, 1, 1, 1, 1, 1, 1, 1, 1]
    BarChart.initState 0 (by decide) (by decide)
  norm_num at h
  simp only [List.getD_eq_getElem?_getD]
  rw [h]
  have hI : BarChart.initState.instanceData[4]?.getD none = some (5 / 10) := rfl
  rw [hI]
  have hM : BarChart.jsMathMax1 [1, 1, 1, 1, 1, 1, 1, 1, 1, 1, 1] = 1 := by
    simp [BarChart.jsMathMax1]
  rw [BarChart.scaleExpr_eq_some _ _ 0 1 (by rw [hM]; norm_num) (by norm_num), hM]
  norm_num

/-- C1 (amended): `updateInstanceScales` performs no length validation.  For
every magnitude sequence whose length differs from barCount it still runs to
completion: it performs exactly one buffer write, each bar `i` beyond the
sequence's length receives NaN scale.y (reading `values[i]` gives
`undefined`), and each bar `i` inside the sequence receives
`0.05 + (values[i] / Math.max(...values, 1)) * 0.9`.  It never fails with
`ShapeMismatch`, and prior scale.y data is overwritten, not preserved. -/
theorem C1_no_length_check (values : List ℚ) (s : BarChart.BarState)
    (hlen : values.length ≠ BarChart.barCount) (hs : s.instanceData.length = 60) :
    (BarChart.updateInstanceScales values s).writes = s.writes + 1
    ∧ (∀ i, i < BarChart.barCount → values.length ≤ i →
        (BarChart.updateInstanceScales values s).instanceData.getD (i * 6 + 4) none = none)
    ∧ ∀ i v, i < BarChart.barCount → values[i]? = some v →
        (BarChart.updateInstanceScales values s).instanceData.getD (i * 6 + 4) none
          = some (5 / 100 + v / BarChart.jsMathMax1 values * (9 / 10)) := by
  refine ⟨rfl, ?_, ?_⟩
  · intro i hi hle
    have hb : i < 10 := hi
    rw [BarChart.update_hit values s i hi (by omega)]
    exact BarChart.scaleExpr_eq_none values _ i (List.getElem?_eq_none hle)
  · intro i v hi hv
    have hb : i < 10 := hi
    rw [BarChart.update_hit values s i hi (by omega)]
    exact BarChart.scaleExpr_eq_some values _ i v (BarChart.jsMathMax1_ne_zero values) hv

/-- C1 witness: the amended theorem applied to the concrete 11-element
sequence of ones and the startup state. -/
theorem C1_witness :
    ([1, 1, 1, 1, 1, 1, 1, 1, 1, 1, 1] : List ℚ).length ≠ BarChart.barCount
    ∧ BarChart.initState.instanceData.length = 60
    ∧ (BarChart.updateInstanceScales [1, 1, 1, 1, 1, 1, 1, 1, 1, 1, 1]
          BarChart.initState).writes
        = BarChart.initState.writes + 1 :=
  ⟨by decide, by decide,
   (C1_no_length_check [1, 1, 1, 1, 1, 1, 1, 1, 1, 1, 1] BarChart.initState
      (by decide) (by decide)).1⟩

/-- C2 counterexample: with `tan(fovY/2) = 1`, `aspect = 1`, `near = 1`,
`far = 3` (all valid: `aspect > 0`, `0 < near < far`), the point `(0,0,-near)`
on the center axis at the near plane maps to normalized depth `-1`, not the
claimed `0`. -/
theorem C2_counterexample :
    ndcDepth (BarChart.perspective 1 1 1 3) 0 0 (-1) = -1
    ∧ (-1 : ℚ) ≠ 0 := by
  constructor
  · have h2 : mget (BarChart.perspective 1 1 1 3) 2 = 0 := rfl
    have h6 : mget (BarChart.perspective 1 1 1 3) 6 = 0 := rfl
    have h10 : mget (BarChart.perspective 1 1 1 3) 10 = (3 + 1) * (1 / (1 - 3)) := rfl
    have h14 : mget (BarChart.perspective 1 1 1 3) 14 = 2 * 3 * 1 * (1 / (1 - 3)) := rfl
    have h3 : mget (BarChart.perspective 1 1 1 3) 3 = 0 := rfl
    have h7 : mget (BarChart.perspective 1 1 1 3) 7 = 0 := rfl
    have h11 : mget (BarChart.perspective 1 1 1 3) 11 = -1 := rfl
    have h15 : mget (BarChart.perspective 1 1 1 3) 15 = 0 := rfl
    unfold ndcDepth clipZ clipW transformVec
    rw [h2, h6, h10, h14, h3, h7, h11, h15]
    norm_num
  · norm_num

/-- C2 (amended): for every fovY (represented by the value of
`Math.tan(fovY/2)`), every `aspect > 0` and every `0 < near < far`, the matrix
returned by `perspective` maps the center-axis point at the far plane
(`z = -far`) to normalized depth `1` and the center-axis point at the near
plane (`z = -near`) to normalized depth `-1` after the perspective divide
(the OpenGL `[-1, 1]` depth convention, not WebGPU's `[0, 1]`). -/
theorem C2_perspective_depth (tanHalfFov aspect near far : ℚ)
    (ha : 0 < aspect) (hn : 0 < near) (hnf : near < far) :
    ndcDepth (BarChart.perspective tanHalfFov aspect near far) 0 0 (-far) = 1
    ∧ ndcDepth (BarChart.perspective tanHalfFov aspect near far) 0 0 (-near) = -1 := by
  have hfar : (0 : ℚ) < far := lt_trans hn hnf
  have hd : near - far ≠ 0 := sub_ne_zero.mpr (ne_of_lt hnf)
  have hfz : far ≠ 0 := ne_of_gt hfar
  have hnz : near ≠ 0 := ne_of_gt hn
  have h2 : mget (BarChart.perspective tanHalfFov aspect near far) 2 = 0 := rfl
  have h6 : mget (BarChart.perspective tanHalfFov aspect near far) 6 = 0 := rfl
  have h10 : mget (BarChart.perspective tanHalfFov aspect near far) 10
      = (far + near) * (1 / (near - far)) := rfl
  have h14 : mget (BarChart.perspective tanHalfFov aspect near far) 14
      = 2 * far * near * (1 / (near - far)) := rfl
  have h3 : mget (BarChart.perspective tanHalfFov aspect near far) 3 = 0 := rfl
  have h7 : mget (BarChart.perspective tanHalfFov aspect near far) 7 = 0 := rfl
  have h11 : mget (BarChart.perspective tanHalfFov aspect near far) 11 = -1 := rfl
  have h15 : mget (BarChart.perspective tanHalfFov aspect near far) 15 = 0 := rfl
  constructor
  · unfold ndcDepth clipZ clipW transformVec
    rw [h2, h6, h10, h14, h3, h7, h11, h15]
    rw [div_eq_one_iff_eq (by ring_nf; exact hfz)]
    field_simp
    ring
  · unfold ndcDepth clipZ clipW transformVec
    rw [h2, h6, h10, h14, h3, h7, h11, h15]
    rw [div_eq_iff (by ring_nf; exact hnz)]
    field_simp
    ring

/-- C2 witness: the amended theorem at `tan(fovY/2) = 1`, `aspect = 1`,
`near = 1`, `far = 3`. -/
theorem C2_witness :
    (0 : ℚ) < 1 ∧ (1 : ℚ) < 3
    ∧ ndcDepth (BarChart.perspective 1 1 1 3) 0 0 (-3) = 1
    ∧ ndcDepth (BarChart.perspective 1 1 1 3) 0 0 (-1) = -1 :=
  ⟨by norm_num, by norm_num,
   (C2_perspective_depth 1 1 1 3 (by norm_num) (by norm_num) (by norm_num)).1,
   (C2_perspective_depth 1 1 1 3 (by norm_num) (by norm_num) (by norm_num)).2⟩

/-- C3 counterexample: the two `multiply` implementations disagree
element-for-element on a concrete pair of 16-element matrices, refuting the
claim that they are duplicates of the same function. -/
theorem C3_counterexample :
    BarChart.multiply
        [0, 1, 0, 0, 0, 0, 0, 0, 0, 0, 0, 0, 0, 0, 0, 0]
        [0, 0, 0, 0, 1, 0, 0, 0, 0, 0, 0, 0, 0, 0, 0, 0]
      ≠ CubeViewer.multiply
        [0, 1, 0, 0, 0, 0, 0, 0, 0, 0, 0, 0, 0, 0, 0, 0]
        [0, 0, 0, 0, 1, 0, 0, 0, 0, 0, 0, 0, 0, 0, 0, 0] := by
  simp only [BarChart.multiply, CubeViewer.multiply, mget]
  norm_num

/-- C3 (amended): the two `multiply` implementations are transposed-argument
versions of one another, not duplicates: for every pair of matrices `a`, `b`,
the bar-chart `multiply(a, b)` equals element-for-element the cube-viewer
`multiply(b, a)` — they read their flat arrays under opposite (row-major vs
column-major) conventions. -/
theorem C3_transpose_equiv (a b : List ℚ) :
    BarChart.multiply a b = CubeViewer.multiply b a := by
  simp only [BarChart.multiply, CubeViewer.multiply, List.cons.injEq, and_true]
  repeat' apply And.intro
  all_goals ring

/-- C4 counterexample: an HTTP-success response whose body parses as JSON but
whose `bpi.USD.rate` field is missing or unparsable (`parseFloat` gives NaN,
modelled by `success none`) is not a well-formed successful response, yet the
code does not take the `[0, 100)` fallback: it substitutes
`usdRate = Math.random() * 50000` and emits `usdRate * (0.8 + rnd * 0.4)`.
With the valid random stream constantly `1/2` this puts the magnitude
`25000` — far outside `[0, 100)` — in the produced sequence, refuting the
claimed bound for that outcome. -/
theorem C4_counterexample :
    (0 : ℚ) ≤ 1 / 2 ∧ (1 / 2 : ℚ) < 1
    ∧ (BarChart.adapterValues (BarChart.FetchOutcome.success none) fun _ => 1 / 2).length
        = BarChart.barCount
    ∧ (25000 : ℚ) ∈ (BarChart.adapterValues (BarChart.FetchOutcome.success none) fun _ => 1 / 2)
    ∧ ¬((25000 : ℚ) < 100) := by
  refine ⟨by norm_num, by norm_num, by simp [BarChart.adapterValues], ?_, by norm_num⟩
  simp only [BarChart.adapterValues, List.mem_map, List.mem_range]
  exact ⟨0, by decide, by norm_num⟩

/-- C4 (amended): for the three transport-level failure outcomes — the fetch
throws (network error), the response has a non-success HTTP status, or the
body fails to parse as JSON — given that every `Math.random()` draw lies in
`[0, 1)`, the adapter produces exactly barCount magnitudes, each in
`[0, 100)`, and the operation still reaches the buffer upload (the embedding
is total — the `try`/`catch` absorbs every throwing path, so no exception
propagates past `fetchDataAndUpdate`).  A successful response with a
missing, unparsable or zero rate field is NOT covered: there the code
substitutes a random rate up to 50000 instead of the `[0, 100)` fallback, as
the counterexample shows. -/
theorem C4_fallback_valid (o : BarChart.FetchOutcome) (rnd : Nat → ℚ)
    (s : BarChart.BarState)
    (hr : ∀ k, 0 ≤ rnd k ∧ rnd k < 1)
    (ho : ∀ r, o ≠ BarChart.FetchOutcome.success r) :
    (BarChart.adapterValues o rnd).length = BarChart.barCount
    ∧ (∀ v ∈ BarChart.adapterValues o rnd, 0 ≤ v ∧ v < 100)
    ∧ (BarChart.fetchDataAndUpdate o rnd s).writes = s.writes + 1 := by
  have hA : BarChart.adapterValues o rnd
      = (List.range BarChart.barCount).map fun k => rnd k * 100 := by
    cases o with
    | networkError => rfl
    | badStatus => rfl
    | malformedBody => rfl
    | success r => exact absurd rfl (ho r)
  refine ⟨by rw [hA]; simp, ?_, rfl⟩
  intro v hv
  rw [hA] at hv
  simp only [List.mem_map, List.mem_range] at hv
  obtain ⟨k, _, rfl⟩ := hv
  constructor
  · exact mul_nonneg (hr k).1 (by norm_num)
  · calc rnd k * 100 < 1 * 100 := mul_lt_mul_of_pos_right (hr k).2 (by norm_num)
    _ = 100 := by norm_num

/-- C4 witness: the theorem applied to a network-error outcome with the
constant random stream `1/2` and the startup state. -/
theorem C4_witness :
    (BarChart.adapterValues BarChart.FetchOutcome.networkError fun _ => 1 / 2).length
        = BarChart.barCount
    ∧ (BarChart.fetchDataAndUpdate BarChart.FetchOutcome.networkError (fun _ => 1 / 2)
          BarChart.initState).writes = BarChart.initState.writes + 1 :=
  ⟨(C4_fallback_valid BarChart.FetchOutcome.networkError (fun _ => 1 / 2)
      BarChart.initState (fun k => ⟨by norm_num, by norm_num⟩)
      (fun r h => BarChart.FetchOutcome.noConfusion h)).1,
   (C4_fallback_valid BarChart.FetchOutcome.networkError (fun _ => 1 / 2)
      BarChart.initState (fun k => ⟨by norm_num, by norm_num⟩)
      (fun r h => BarChart.FetchOutcome.noConfusion h)).2.2⟩

/-- C5 (code bug): in the bar-chart module the depth attachment is NOT
re-provisioned after a resize.  Starting with a 300×150 canvas, after a
resize event to 600×300 the next frame's render pass is recorded with the
stale 300×150 depth attachment while the canvas is 600×300 — the claimed
invariant fails.  The cube-viewer module's frame (which checks and
re-provisions, viewer.js lines 268–275) records the pass with the matching
600×300 attachment on the same input. -/
theorem C5_stale_depth_attachment :
    (BarChart.framePass (resizeCanvas (initSurface 300 150) 600 300)).2 = (300, 150)
    ∧ (resizeCanvas (initSurface 300 150) 600 300).canvasW = 600
    ∧ (resizeCanvas (initSurface 300 150) 600 300).canvasH = 300
    ∧ (BarChart.framePass (resizeCanvas (initSurface 300 150) 600 300)).2.1
        ≠ (resizeCanvas (initSurface 300 150) 600 300).canvasW
    ∧ (CubeViewer.framePass (resizeCanvas (initSurface 300 150) 600 300)).2 = (600, 300) := by
  decide

/-- C6 counterexample: on the all-`0.5` sequence (length 10, non-negative),
bar 0's magnitude `0.5` equals the sequence's maximum, yet its scale.y after
bind is `0.5`, not the claimed `0.95` — because the divisor is
`Math.max(...values, 1) = 1`, not the sequence maximum, whenever the maximum
is below 1. -/
theorem C6_counterexample :
    (∀ x ∈ ([1/2, 1/2, 1/2, 1/2, 1/2, 1/2, 1/2, 1/2, 1/2, 1/2] : List ℚ), x ≤ 1/2)
    ∧ (BarChart.updateInstanceScales [1/2, 1/2, 1/2, 1/2, 1/2, 1/2, 1/2, 1/2, 1/2, 1/2]
          BarChart.initState).instanceData.getD 4 none
        = some (1/2)
    ∧ (1/2 : ℚ) ≠ 95/100 := by
  refine ⟨by norm_num, ?_, by norm_num⟩
  have h := BarChart.update_hit [1/2, 1/2, 1/2, 1/2, 1/2, 1/2, 1/2, 1/2, 1/2, 1/2]
    BarChart.initState 0 (by decide) (by decide)
  norm_num at h
  simp only [List.getD_eq_getElem?_getD]
  rw [h]
  have hM : BarChart.jsMathMax1 [1/2, 1/2, 1/2, 1/2, 1/2, 1/2, 1/2, 1/2, 1/2, 1/2] = 1 := by
    norm_num [BarChart.jsMathMax1, max_def]
  rw [BarChart.scaleExpr_eq_some _ _ 0 (1/2) (by rw [hM]; norm_num) (by norm_num), hM]
  norm_num

/-- C6 (amended): for every non-negative magnitude sequence of length
barCount whose maximum is at least 1, the divisor `Math.max(...values, 1)` is
exactly the sequence's maximum (it is attained in the sequence and bounds
every element), each bar with magnitude `v` receives scale.y
`0.05 + (v / max) * 0.9`, the bar whose magnitude equals the maximum receives
exactly `0.95`, and every bar's scale.y lies within `[0.05, 0.95]`.  (When
the sequence maximum is below 1 the divisor floors at 1 and the maximal bar
receives less than 0.95, as the counterexample shows.) -/
theorem C6_scale_proportional (values : List ℚ) (s : BarChart.BarState) (i : Nat) (v : ℚ)
    (hlen : values.length = BarChart.barCount) (hs : s.instanceData.length = 60)
    (hnn : ∀ x ∈ values, 0 ≤ x) (hex : ∃ y ∈ values, 1 ≤ y)
    (hv : values[i]? = some v) :
    BarChart.jsMathMax1 values ∈ values
    ∧ (∀ x ∈ values, x ≤ BarChart.jsMathMax1 values)
    ∧ (BarChart.updateInstanceScales values s).instanceData.getD (i * 6 + 4) none
        = some (5 / 100 + v / BarChart.jsMathMax1 values * (9 / 10))
    ∧ (v = BarChart.jsMathMax1 values →
        5 / 100 + v / BarChart.jsMathMax1 values * (9 / 10) = 95 / 100)
    ∧ 5 / 100 ≤ 5 / 100 + v / BarChart.jsMathMax1 values * (9 / 10)
    ∧ 5 / 100 + v / BarChart.jsMathMax1 values * (9 / 10) ≤ 95 / 100 := by
  have hM1 : 1 ≤ BarChart.jsMathMax1 values := BarChart.one_le_jsMathMax1 values
  have hM0 : (0 : ℚ) < BarChart.jsMathMax1 values := lt_of_lt_of_le zero_lt_one hM1
  have hMmem : BarChart.jsMathMax1 values ∈ values := by
    rcases BarChart.foldl_max_mem_or values 1 with h | h
    · obtain ⟨y, hy, h1y⟩ := hex
      have hyM : y ≤ values.foldl max 1 := BarChart.le_foldl_max_of_mem hy 1
      have hy1 : y = 1 := le_antisymm (h ▸ hyM) h1y
      show values.foldl max 1 ∈ values
      rw [h, ← hy1]
      exact hy
    · exact h
  have hvmem : v ∈ values := List.getElem?_mem hv
  have hvM : v ≤ BarChart.jsMathMax1 values := BarChart.le_foldl_max_of_mem hvmem 1
  have hv0 : 0 ≤ v := hnn v hvmem
  have hi : i < BarChart.barCount := by
    have hil : i < values.length := by
      rcases List.getElem?_eq_some_iff.mp hv with ⟨h, _⟩
      exact h
    rwa [hlen] at hil
  have hb : i < 10 := hi
  refine ⟨hMmem, fun x hx => BarChart.le_foldl_max_of_mem hx 1, ?_, ?_, ?_, ?_⟩
  · rw [BarChart.update_hit values s i hi (by omega)]
    exact BarChart.scaleExpr_eq_some values _ i v (ne_of_gt hM0) hv
  · intro hveq
    rw [hveq, div_self (ne_of_gt hM0)]
    norm_num
  · have hpos : 0 ≤ v / BarChart.jsMathMax1 values * (9 / 10) := by positivity
    linarith
  · have hdiv : v / BarChart.jsMathMax1 values ≤ 1 := (div_le_one hM0).mpr hvM
    have hmul : v / BarChart.jsMathMax1 values * (9 / 10) ≤ 1 * (9 / 10) :=
      mul_le_mul_of_nonneg_right hdiv (by norm_num)
    linarith

/-- C6 witness: the amended theorem on the sequence `1, 2, ..., 10` (maximum
10 ≥ 1) at bar 9, whose magnitude is the maximum. -/
theorem C6_witness :
    (BarChart.updateInstanceScales [1, 2, 3, 4, 5, 6, 7, 8, 9, 10]
        BarChart.initState).instanceData.getD (9 * 6 + 4) none
      = some (5 / 100 + 10 / BarChart.jsMathMax1 [1, 2, 3, 4, 5, 6, 7, 8, 9, 10] * (9 / 10)) :=
  (C6_scale_proportional [1, 2, 3, 4, 5, 6, 7, 8, 9, 10] BarChart.initState 9 10
    (by decide) (by decide) (by norm_num) ⟨10, by norm_num, by norm_num⟩
    (by norm_num)).2.2.1

/-- C7: when GPU capability is absent at startup, `initVisualization` shows
the static fallback message, hides the canvas, and returns: no vertex, index,
instance or uniform buffer is created, no pipeline is built, and zero draw
calls are issued, however many frame callbacks the host would have delivered;
the guard path contains no throwing operation. -/
theorem C7_unsupported_device (frames : Nat) :
    BarChart.initVisualization false frames
      = { messageShown := true, canvasHidden := true,
          vertexBufferCreated := false, indexBufferCreated := false,
          instanceBufferCreated := false, uniformBufferCreated := false,
          pipelineCreated := false, drawCalls := 0 } :=
  rfl

/-- C8: `updateInstanceScales` modifies only the scale.y slot (index
`i * 6 + 4`) of each instance record, and across any session of updates every
offset component and scale.x / scale.z retain exactly their creation-time
values `(i - (barCount - 1)/2) * barSpacing`, `0`, `0`, `0.08`, `0.08`. -/
theorem C8_only_scaleY_mutated :
    (∀ (values : List ℚ) (s : BarChart.BarState) (j : Nat),
        values.length = BarChart.barCount → j % 6 ≠ 4 →
        (BarChart.updateInstanceScales values s).instanceData.getD j none
          = s.instanceData.getD j none)
    ∧ ∀ (updates : List (List ℚ)) (i : Nat), i < BarChart.barCount →
        (BarChart.applyUpdates updates).instanceData.getD (i * 6) none
            = some (((i : ℚ) - ((BarChart.barCount : ℚ) - 1) / 2) * BarChart.barSpacing)
        ∧ (BarChart.applyUpdates updates).instanceData.getD (i * 6 + 1) none = some 0
        ∧ (BarChart.applyUpdates updates).instanceData.getD (i * 6 + 2) none = some 0
        ∧ (BarChart.applyUpdates updates).instanceData.getD (i * 6 + 3) none = some (8 / 100)
        ∧ (BarChart.applyUpdates updates).instanceData.getD (i * 6 + 5) none
            = some (8 / 100) := by
  constructor
  · intro values s j _ hj
    exact BarChart.update_untouched values s j hj
  · intro updates i hi
    have e : ∀ k : Nat, k % 6 ≠ 4 →
        (BarChart.applyUpdates updates).instanceData.getD k none
          = BarChart.initInstanceData.getD k none := fun k hk =>
      BarChart.foldUpdates_untouched updates BarChart.initState k hk
    rw [e (i * 6) (by omega), e (i * 6 + 1) (by omega), e (i * 6 + 2) (by omega),
      e (i * 6 + 3) (by omega), e (i * 6 + 5) (by omega)]
    have hb : i < 10 := hi
    interval_cases i <;> exact ⟨rfl, rfl, rfl, rfl, rfl⟩

/-- C8 witness: the theorem applied to a concrete length-10 update (slot 3,
scale.x of bar 0, is untouched) and to a concrete one-update session (bar 2's
offset.y is still 0). -/
theorem C8_witness :
    (BarChart.updateInstanceScales [2, 2, 2, 2, 2, 2, 2, 2, 2, 2]
        BarChart.initState).instanceData.getD 3 none
      = BarChart.initState.instanceData.getD 3 none
    ∧ (BarChart.applyUpdates [[1, 2, 3, 4, 5, 6, 7, 8, 9, 10]]).instanceData.getD
        (2 * 6 + 1) none = some 0 :=
  ⟨C8_only_scaleY_mutated.1 [2, 2, 2, 2, 2, 2, 2, 2, 2, 2] BarChart.initState 3
      (by decide) (by decide),
   (C8_only_scaleY_mutated.2 [[1, 2, 3, 4, 5, 6, 7, 8, 9, 10]] 2 (by decide)).2.1⟩

/-- C9: the bind operation is invariant under uniform rescaling: for every
length-barCount sequence whose maximum is at least 1 and every scalar
`c ≥ 1`, updating with the element-wise product `c * values` stores exactly
the same scale.y for every bar as updating with `values`. -/
theorem C9_scale_invariance (values : List ℚ) (c : ℚ) (s : BarChart.BarState) (i : Nat)
    (hlen : values.length = BarChart.barCount) (hc : 1 ≤ c)
    (hex : ∃ y ∈ values, 1 ≤ y)
    (hs : s.instanceData.length = 60) (hi : i < BarChart.barCount) :
    (BarChart.updateInstanceScales (values.map fun x => c * x) s).instanceData.getD
        (i * 6 + 4) none
      = (BarChart.updateInstanceScales values s).instanceData.getD (i * 6 + 4) none := by
  have hb : i < 10 := hi
  rw [BarChart.update_hit _ s i hi (by omega), BarChart.update_hit values s i hi (by omega)]
  have hMm := BarChart.jsMathMax1_map_mul hc hex
  have hM0 : BarChart.jsMathMax1 values ≠ 0 := BarChart.jsMathMax1_ne_zero values
  have hc0 : c ≠ 0 := ne_of_gt (lt_of_lt_of_le zero_lt_one hc)
  cases hv : values[i]? with
  | none =>
    have hv2 : (values.map fun x => c * x)[i]? = none := by
      rw [List.getElem?_map, hv]
      rfl
    rw [BarChart.scaleExpr_eq_none _ _ i hv2, BarChart.scaleExpr_eq_none values _ i hv]
  | some v =>
    have hv2 : (values.map fun x => c * x)[i]? = some (c * v) := by
      rw [List.getElem?_map, hv]
      rfl
    rw [BarChart.scaleExpr_eq_some _ _ i (c * v)
        (by rw [hMm]; exact mul_ne_zero hc0 hM0) hv2,
      BarChart.scaleExpr_eq_some values _ i v hM0 hv, hMm,
      mul_div_mul_left v _ hc0]

/-- C9 witness: the theorem on the sequence `1, ..., 10` scaled by `c = 3` at
bar 0. -/
theorem C9_witness :
    (BarChart.updateInstanceScales ([1, 2, 3, 4, 5, 6, 7, 8, 9, 10].map fun x => 3 * x)
        BarChart.initState).instanceData.getD (0 * 6 + 4) none
      = (BarChart.updateInstanceScales [1, 2, 3, 4, 5, 6, 7, 8, 9, 10]
          BarChart.initState).instanceData.getD (0 * 6 + 4) none :=
  C9_scale_invariance [1, 2, 3, 4, 5, 6, 7, 8, 9, 10] 3 BarChart.initState 0
    (by decide) (by norm_num) ⟨10, by norm_num, by norm_num⟩ (by decide) (by decide)

/-- C10: every one of the barCount instance records is created with scale.y
equal to 0.5, a non-zero default, so frames rendered before any fetch
resolves draw all bars at a uniform visible height. -/
theorem C10_default_height (i : Nat) (hi : i < BarChart.barCount) :
    BarChart.initInstanceData.getD (i * 6 + 4) none = some (5 / 10)
    ∧ (5 / 10 : ℚ) ≠ 0 := by
  have hb : i < 10 := hi
  refine ⟨?_, by norm_num⟩
  interval_cases i <;> rfl

/-- C10 witness: the theorem at bar 0. -/
theorem C10_witness :
    BarChart.initInstanceData.getD (0 * 6 + 4) none = some (5 / 10)
    ∧ (5 / 10 : ℚ) ≠ 0 :=
  C10_default_height 0 (by decide)

end Viz
